import Mathlib

/-!
Shallow embedding of the upload-and-generate workflow of `src/src/App.jsx`
(the `App` component of My-AI-Neighbor): its state fields, the
`handleFileChange`, `handleGenerate` and error-dismiss operations, and the
HTTP request it issues, together with theorems settling the specified
properties of that workflow.
-/

namespace MyAINeighbor

/-- A browser `File` object as seen by the component: a name, a declared
media type (`file.type`) and the content bytes. -/
structure JsFile where
  name : String
  type : String
  bytes : List Nat
deriving Repr, DecidableEq

/-- Model of the JS `string.startsWith` method (true when the second string
is an initial segment of the first), written over character lists so that
the kernel can evaluate it on concrete inputs. -/
def strStartsWith (s p : String) : Bool := p.data.isPrefixOf s.data

/-- Model of `URL.createObjectURL` applied to a blob with the given bytes:
a displayable local URI derived deterministically from the bytes. -/
def createObjectURL (bytes : List Nat) : String :=
  "blob:" ++ String.intercalate "," (bytes.map toString)

/-- The six `useState` fields owned by the `App` component. -/
structure AppState where
  /-- `uploadedImage`: preview URI of the staged file, or `null`. -/
  uploadedImage : Option String
  /-- `uploadedFile`: the staged file object sent to the backend, or `null`. -/
  uploadedFile : Option JsFile
  /-- `generatedImage`: URI of the AI result, or `null`. -/
  generatedImage : Option String
  /-- `prompt`: the text prompt. -/
  prompt : String
  /-- `isLoading`: the submitting flag. -/
  isLoading : Bool
  /-- `error`: the error message, or `null`. -/
  error : Option String
deriving Repr, DecidableEq

/-- The initial values passed to `useState`. -/
def initialState : AppState :=
  { uploadedImage := none, uploadedFile := none, generatedImage := none
  , prompt := "", isLoading := false, error := none }

/-- The fixed validation message of `handleFileChange`. -/
def fileValidationMsg : String := "Please upload a valid image file."

/-- The validation message of `handleGenerate` when no file is staged. -/
def noFileMsg : String := "Please upload an image first!"

/-- The generic user-facing failure message of `handleGenerate`. -/
def genericFailureMsg : String :=
  "Failed to generate image. Please ensure the backend is running and check the console."

/-- `handleFileChange(file)`: accepts the candidate when it exists and its
media type starts with `image/`; otherwise rejects it. -/
def handleFileChange (s : AppState) (file : Option JsFile) : AppState :=
  match file with
  | some f =>
    if strStartsWith f.type "image/" then
      { s with uploadedFile := some f
             , uploadedImage := some (createObjectURL f.bytes)
             , generatedImage := none
             , error := none }
    else
      { s with error := some fileValidationMsg
             , uploadedImage := none
             , uploadedFile := none }
  | none =>
      { s with error := some fileValidationMsg
             , uploadedImage := none
             , uploadedFile := none }

/-- An HTTP response from the backend: status code and binary body. -/
structure HttpResponse where
  status : Nat
  body : List Nat
deriving Repr, DecidableEq

/-- `Response.ok` of fetch: the status is in the success range 200–299. -/
def HttpResponse.ok (r : HttpResponse) : Bool :=
  decide (200 ≤ r.status) && decide (r.status < 300)

/-- Model of `Response.text()`: the body bytes decoded to text. -/
def textOfBytes (bs : List Nat) : String :=
  String.mk (bs.map (fun b => Char.ofNat b))

/-- Resolution of the fetch promise: an HTTP response, or a transport-level
failure (network unreachable, aborted, malformed response). -/
inductive FetchOutcome where
  | response (r : HttpResponse)
  | transportError (msg : String)
deriving Repr, DecidableEq

/-- Whether the outcome takes a failure path of `handleGenerate`. -/
def FetchOutcome.isFailure : FetchOutcome → Bool
  | .response r => !r.ok
  | .transportError _ => true

/-- One entry appended to the `FormData` body. -/
inductive FormDataValue where
  | fileEntry (f : JsFile)
  | textEntry (s : String)
deriving Repr, DecidableEq

/-- The HTTP request issued by `fetch`: URL, method, client-set headers and
the multipart form body in append order. -/
structure HttpRequest where
  url : String
  method : String
  headers : List (String × String)
  formData : List (String × FormDataValue)
deriving Repr, DecidableEq

/-- The fixed endpoint `API_URL` of `handleGenerate`. -/
def API_URL : String := "http://localhost:8080/api/v1/generate"

/-- The synchronous part of `handleGenerate` up to the `fetch` call: the
missing-file guard, setting the loading flag, clearing the previous result
and error, and building the request. Returns the state at the moment the
request is issued, and the request itself when one is issued. -/
def handleGenerateStart (s : AppState) : AppState × Option HttpRequest :=
  match s.uploadedFile with
  | none => ({ s with error := some noFileMsg }, none)
  | some f =>
    ({ s with isLoading := true, generatedImage := none, error := none },
     some { url := API_URL, method := "POST", headers := []
          , formData := [("image", FormDataValue.fileEntry f),
                         ("prompt", FormDataValue.textEntry s.prompt)] })

/-- The `try`/`catch`/`finally` continuation of `handleGenerate` once the
fetch promise resolves: on a 2xx response the body blob becomes
`generatedImage`; on a non-2xx response an error is thrown and caught; on a
transport failure the exception is caught. The catch sets the generic
message and logs the detail; the finally clears the loading flag on every
path. Returns the new state and the message written to the diagnostic
console, when any. -/
def handleGenerateFinish (s : AppState) (o : FetchOutcome) :
    AppState × Option String :=
  match o with
  | .response r =>
    if r.ok then
      ({ s with generatedImage := some (createObjectURL r.body)
              , isLoading := false }, none)
    else
      ({ s with error := some genericFailureMsg, isLoading := false },
       some ("Error generating image: Network response was not ok. Status: "
             ++ toString r.status ++ ". Message: " ++ textOfBytes r.body))
  | .transportError msg =>
      ({ s with error := some genericFailureMsg, isLoading := false },
       some ("Error generating image: " ++ msg))

/-- `handleGenerate` as an atomic operation, parametrised by how the fetch
resolves: final state, the request issued (when any), and the diagnostic
console output (when any). When no file is staged the fetch never happens
and the outcome is irrelevant. -/
def handleGenerate (s : AppState) (o : FetchOutcome) :
    AppState × Option HttpRequest × Option String :=
  match handleGenerateStart s with
  | (s1, none) => (s1, none, none)
  | (s1, some req) =>
    ((handleGenerateFinish s1 o).1, some req, (handleGenerateFinish s1 o).2)

/-- The `onClose` callback of the error banner: `setError(null)`. -/
def dismissError (s : AppState) : AppState := { s with error := none }

/-- The `onChange` handler of the prompt textarea: `setPrompt(value)`. -/
def setPrompt (s : AppState) (p : String) : AppState := { s with prompt := p }

/-- The workflow status of the spec, derived from the loading flag, result
presence and error presence as the spec prescribes. -/
inductive WorkflowStatus where
  | Idle
  | Submitting
  | Succeeded
  | Failed
deriving Repr, DecidableEq

/-- Derivation of `WorkflowStatus` from the component state. -/
def workflowStatus (s : AppState) : WorkflowStatus :=
  if s.isLoading then WorkflowStatus.Submitting
  else if s.generatedImage.isSome then WorkflowStatus.Succeeded
  else if s.error.isSome then WorkflowStatus.Failed
  else WorkflowStatus.Idle

/-- One complete user-visible operation of the workflow. -/
inductive Step : AppState → AppState → Prop where
  | fileChange (s : AppState) (file : Option JsFile) :
      Step s (handleFileChange s file)
  | generate (s : AppState) (o : FetchOutcome) :
      Step s (handleGenerate s o).1
  | dismiss (s : AppState) : Step s (dismissError s)
  | promptChange (s : AppState) (p : String) : Step s (setPrompt s p)

/-- States reachable from the initial state by complete operations. -/
inductive Reachable : AppState → Prop where
  | init : Reachable initialState
  | step {s t : AppState} : Reachable s → Step s t → Reachable t

/-- A sample valid image file. -/
def catFile : JsFile := { name := "cat.png", type := "image/png", bytes := [1, 2, 3] }

/-- A sample non-image file. -/
def txtFile : JsFile := { name := "notes.txt", type := "text/plain", bytes := [10] }

/-- C2: rejecting a candidate whose media type does not start with `image/`
(or a missing candidate) sets the fixed validation message and leaves the
staged file reference and the staged preview image empty. -/
theorem fileChange_reject (s : AppState) (file : Option JsFile)
    (h : ∀ f, file = some f → strStartsWith f.type "image/" = false) :
    (handleFileChange s file).error = some fileValidationMsg ∧
    (handleFileChange s file).uploadedFile = none ∧
    (handleFileChange s file).uploadedImage = none := by
  cases file with
  | none => simp [handleFileChange]
  | some f => simp [handleFileChange, h f rfl]

/-- C2 witness: rejecting a concrete `text/plain` file. -/
theorem fileChange_reject_witness :
    (handleFileChange initialState (some txtFile)).error = some fileValidationMsg ∧
    (handleFileChange initialState (some txtFile)).uploadedFile = none ∧
    (handleFileChange initialState (some txtFile)).uploadedImage = none :=
  fileChange_reject initialState (some txtFile)
    (by intro f hf; cases hf; decide)

/-- C3: accepting a candidate with an image media type stores the file
reference, derives a preview URI from it, and empties the prior
GenerationResult and ErrorState. -/
theorem fileChange_accept (s : AppState) (f : JsFile)
    (h : strStartsWith f.type "image/" = true) :
    (handleFileChange s (some f)).uploadedFile = some f ∧
    (handleFileChange s (some f)).uploadedImage = some (createObjectURL f.bytes) ∧
    (handleFileChange s (some f)).generatedImage = none ∧
    (handleFileChange s (some f)).error = none := by
  simp [handleFileChange, h]

/-- C3 witness: accepting a concrete `image/png` file. -/
theorem fileChange_accept_witness :
    (handleFileChange initialState (some catFile)).uploadedFile = some catFile ∧
    (handleFileChange initialState (some catFile)).uploadedImage
      = some (createObjectURL catFile.bytes) ∧
    (handleFileChange initialState (some catFile)).generatedImage = none ∧
    (handleFileChange initialState (some catFile)).error = none :=
  fileChange_accept initialState catFile (by decide)

/-- C4: generate with no staged file issues no request, sets the validation
message, and leaves the staged image, staged file, prompt, GenerationResult
and submitting flag unchanged. -/
theorem generate_noFile (s : AppState) (o : FetchOutcome)
    (h : s.uploadedFile = none) :
    (handleGenerate s o).2.1 = none ∧
    (handleGenerate s o).1.error = some noFileMsg ∧
    (handleGenerate s o).1.uploadedImage = s.uploadedImage ∧
    (handleGenerate s o).1.uploadedFile = s.uploadedFile ∧
    (handleGenerate s o).1.prompt = s.prompt ∧
    (handleGenerate s o).1.generatedImage = s.generatedImage ∧
    (handleGenerate s o).1.isLoading = s.isLoading := by
  simp [handleGenerate, handleGenerateStart, h]

/-- C4 witness: generate on the initial state, which has no staged file. -/
theorem generate_noFile_witness :
    (handleGenerate initialState (.transportError "down")).2.1 = none ∧
    (handleGenerate initialState (.transportError "down")).1.error = some noFileMsg ∧
    (handleGenerate initialState (.transportError "down")).1.uploadedImage
      = initialState.uploadedImage ∧
    (handleGenerate initialState (.transportError "down")).1.uploadedFile
      = initialState.uploadedFile ∧
    (handleGenerate initialState (.transportError "down")).1.prompt
      = initialState.prompt ∧
    (handleGenerate initialState (.transportError "down")).1.generatedImage
      = initialState.generatedImage ∧
    (handleGenerate initialState (.transportError "down")).1.isLoading
      = initialState.isLoading :=
  generate_noFile initialState (.transportError "down") rfl

/-- C10: whatever the fetch outcome, generate with a staged file leaves the
staged file reference, the staged preview URI and the prompt unchanged. -/
theorem generate_frame (s : AppState) (f : JsFile) (o : FetchOutcome)
    (hf : s.uploadedFile = some f) :
    (handleGenerate s o).1.uploadedFile = s.uploadedFile ∧
    (handleGenerate s o).1.uploadedImage = s.uploadedImage ∧
    (handleGenerate s o).1.prompt = s.prompt := by
  cases o with
  | response r =>
    by_cases hok : r.ok <;>
      simp [handleGenerate, handleGenerateStart, handleGenerateFinish, hf, hok]
  | transportError m =>
      simp [handleGenerate, handleGenerateStart, handleGenerateFinish, hf]

/-- C10 witness: a concrete staged file and a concrete transport failure. -/
theorem generate_frame_witness :
    ((handleGenerate (handleFileChange initialState (some catFile))
        (.transportError "down")).1.uploadedFile
      = (handleFileChange initialState (some catFile)).uploadedFile) ∧
    ((handleGenerate (handleFileChange initialState (some catFile))
        (.transportError "down")).1.uploadedImage
      = (handleFileChange initialState (some catFile)).uploadedImage) ∧
    ((handleGenerate (handleFileChange initialState (some catFile))
        (.transportError "down")).1.prompt
      = (handleFileChange initialState (some catFile)).prompt) :=
  generate_frame (handleFileChange initialState (some catFile)) catFile
    (.transportError "down") (by decide)

/-- An `Idle` derived status means: not loading, no result, no error. -/
theorem status_Idle_elim {s : AppState}
    (h : workflowStatus s = WorkflowStatus.Idle) :
    s.isLoading = false ∧ s.generatedImage = none ∧ s.error = none := by
  unfold workflowStatus at h
  by_cases h1 : s.isLoading = true
  · simp [h1] at h
  · by_cases h2 : s.generatedImage = none
    · by_cases h3 : s.error = none
      · exact ⟨by simpa using h1, h2, h3⟩
      · obtain ⟨m, hm⟩ := Option.ne_none_iff_exists'.mp h3
        simp [h1, h2, hm] at h
    · obtain ⟨v, hv⟩ := Option.ne_none_iff_exists'.mp h2
      simp [h1, hv] at h

/-- C5: a generate call from Idle with a staged file and a 2xx response
with a binary body goes Idle, Submitting, Succeeded; the result becomes the
URI derived from the returned bytes; the error is empty before the call, at
the moment the request is issued, and after completion. -/
theorem generate_success (s : AppState) (f : JsFile) (r : HttpResponse)
    (hf : s.uploadedFile = some f)
    (hidle : workflowStatus s = WorkflowStatus.Idle)
    (hok : 200 ≤ r.status ∧ r.status < 300) :
    s.error = none ∧
    workflowStatus (handleGenerateStart s).1 = WorkflowStatus.Submitting ∧
    (handleGenerateStart s).1.error = none ∧
    workflowStatus (handleGenerate s (.response r)).1 = WorkflowStatus.Succeeded ∧
    (handleGenerate s (.response r)).1.generatedImage
      = some (createObjectURL r.body) ∧
    (handleGenerate s (.response r)).1.error = none := by
  obtain ⟨hl, hg, he⟩ := status_Idle_elim hidle
  have hok' : r.ok = true := by
    simp [HttpResponse.ok, hok.1, hok.2]
  refine ⟨he, ?_, ?_, ?_, ?_, ?_⟩ <;>
    simp [handleGenerate, handleGenerateStart, handleGenerateFinish,
      workflowStatus, hf, hok', he]

/-- C5 witness: a staged png, prompt typed, backend answers 200. -/
theorem generate_success_witness :
    ((handleFileChange initialState (some catFile)).error = none ∧
    workflowStatus (handleGenerateStart
      (handleFileChange initialState (some catFile))).1
      = WorkflowStatus.Submitting ∧
    (handleGenerateStart (handleFileChange initialState (some catFile))).1.error
      = none ∧
    workflowStatus (handleGenerate (handleFileChange initialState (some catFile))
      (.response { status := 200, body := [5, 6] })).1 = WorkflowStatus.Succeeded ∧
    (handleGenerate (handleFileChange initialState (some catFile))
      (.response { status := 200, body := [5, 6] })).1.generatedImage
      = some (createObjectURL [5, 6]) ∧
    (handleGenerate (handleFileChange initialState (some catFile))
      (.response { status := 200, body := [5, 6] })).1.error = none) :=
  generate_success (handleFileChange initialState (some catFile)) catFile
    { status := 200, body := [5, 6] } (by decide) (by decide) (by decide)

/-- C6: a generate call from Idle with a staged file whose fetch ends in a
non-2xx response or a transport failure goes Idle, Submitting, Failed; the
error becomes the fixed generic message; the result stays empty; the
detailed failure goes to the diagnostic channel. -/
theorem generate_failure (s : AppState) (f : JsFile) (o : FetchOutcome)
    (hf : s.uploadedFile = some f)
    (hidle : workflowStatus s = WorkflowStatus.Idle)
    (hfail : o.isFailure = true) :
    workflowStatus (handleGenerateStart s).1 = WorkflowStatus.Submitting ∧
    workflowStatus (handleGenerate s o).1 = WorkflowStatus.Failed ∧
    (handleGenerate s o).1.error = some genericFailureMsg ∧
    (handleGenerate s o).1.generatedImage = none ∧
    (handleGenerate s o).2.2 ≠ none := by
  obtain ⟨hl, hg, he⟩ := status_Idle_elim hidle
  cases o with
  | response r =>
    have hok : r.ok = false := by
      simpa [FetchOutcome.isFailure] using hfail
    refine ⟨?_, ?_, ?_, ?_, ?_⟩ <;>
      simp [handleGenerate, handleGenerateStart, handleGenerateFinish,
        workflowStatus, hf, hok]
  | transportError m =>
    refine ⟨?_, ?_, ?_, ?_, ?_⟩ <;>
      simp [handleGenerate, handleGenerateStart, handleGenerateFinish,
        workflowStatus, hf]

/-- C6 witness: a staged png, backend answers 500. -/
theorem generate_failure_witness :
    (workflowStatus (handleGenerateStart
      (handleFileChange initialState (some catFile))).1
      = WorkflowStatus.Submitting ∧
    workflowStatus (handleGenerate (handleFileChange initialState (some catFile))
      (.response { status := 500, body := [] })).1 = WorkflowStatus.Failed ∧
    (handleGenerate (handleFileChange initialState (some catFile))
      (.response { status := 500, body := [] })).1.error
      = some genericFailureMsg ∧
    (handleGenerate (handleFileChange initialState (some catFile))
      (.response { status := 500, body := [] })).1.generatedImage = none ∧
    (handleGenerate (handleFileChange initialState (some catFile))
      (.response { status := 500, body := [] })).2.2 ≠ none) :=
  generate_failure (handleFileChange initialState (some catFile)) catFile
    (.response { status := 500, body := [] }) (by decide) (by decide) (by decide)

/-- C7: with a staged file, whatever the fetch outcome, the submitting flag
is false when the call completes, and every failure path resolves to the
error message being set rather than an exception escaping (the continuation
is a total function of the outcome). -/
theorem generate_completion (s : AppState) (f : JsFile) (o : FetchOutcome)
    (hf : s.uploadedFile = some f) :
    (handleGenerate s o).1.isLoading = false ∧
    (o.isFailure = true →
      (handleGenerate s o).1.error = some genericFailureMsg) := by
  cases o with
  | response r =>
    by_cases hok : r.ok = true
    · constructor <;>
        simp [handleGenerate, handleGenerateStart, handleGenerateFinish,
          FetchOutcome.isFailure, hf, hok]
    · have hok' : r.ok = false := by simpa using hok
      constructor <;>
        simp [handleGenerate, handleGenerateStart, handleGenerateFinish,
          FetchOutcome.isFailure, hf, hok']
  | transportError m =>
    constructor <;>
      simp [handleGenerate, handleGenerateStart, handleGenerateFinish,
        FetchOutcome.isFailure, hf]

/-- C7 witness: a staged png and a transport failure. -/
theorem generate_completion_witness :
    ((handleGenerate (handleFileChange initialState (some catFile))
        (.transportError "refused")).1.isLoading = false ∧
    ((FetchOutcome.transportError "refused").isFailure = true →
      (handleGenerate (handleFileChange initialState (some catFile))
        (.transportError "refused")).1.error = some genericFailureMsg)) :=
  generate_completion (handleFileChange initialState (some catFile)) catFile
    (.transportError "refused") (by decide)

/-- C9: with a staged file, the call issues exactly one POST to the fixed
endpoint, whose multipart form body is exactly the staged file under key
`image` and the current prompt under key `prompt`, with no client headers;
the endpoint URL ends in the fixed path `/api/v1/generate`. -/
theorem generate_request (s : AppState) (f : JsFile) (o : FetchOutcome)
    (hf : s.uploadedFile = some f) :
    (handleGenerate s o).2.1 = some
      { url := API_URL, method := "POST", headers := []
      , formData := [("image", FormDataValue.fileEntry f),
                     ("prompt", FormDataValue.textEntry s.prompt)] } ∧
    API_URL = "http://localhost:8080" ++ "/api/v1/generate" := by
  constructor
  · cases o with
    | response r =>
      by_cases hok : r.ok = true <;>
        simp [handleGenerate, handleGenerateStart, handleGenerateFinish, hf, hok]
    | transportError m =>
      simp [handleGenerate, handleGenerateStart, handleGenerateFinish, hf]
  · rfl

/-- C9 witness: a staged png with the empty prompt. -/
theorem generate_request_witness :
    ((handleGenerate (handleFileChange initialState (some catFile))
        (.response { status := 200, body := [5, 6] })).2.1 = some
      { url := API_URL, method := "POST", headers := []
      , formData := [("image", FormDataValue.fileEntry catFile),
                     ("prompt", FormDataValue.textEntry
                        (handleFileChange initialState (some catFile)).prompt)] } ∧
    API_URL = "http://localhost:8080" ++ "/api/v1/generate") :=
  generate_request (handleFileChange initialState (some catFile)) catFile
    (.response { status := 200, body := [5, 6] }) (by decide)

/-- The reachable state refuting the disjointness invariant: a successful
generation followed by a rejected file intake, whose `else` branch does not
clear `generatedImage`. -/
def c1State : AppState :=
  handleFileChange
    ((handleGenerate (handleFileChange initialState (some catFile))
        (FetchOutcome.response { status := 200, body := [5, 6] })).1)
    (some txtFile)

/-- C1 counterexample: a reachable, non-submitting state in which both
GenerationResult and ErrorState are non-empty. -/
theorem invariant_counterexample :
    Reachable c1State ∧ c1State.isLoading = false ∧
    c1State.generatedImage ≠ none ∧ c1State.error ≠ none := by
  refine ⟨?_, by decide, by decide, by decide⟩
  exact Reachable.step (Reachable.step (Reachable.step Reachable.init
      (Step.fileChange initialState (some catFile)))
      (Step.generate _ (FetchOutcome.response { status := 200, body := [5, 6] })))
      (Step.fileChange _ (some txtFile))

/-- In every reachable state, a non-empty GenerationResult forces the error
to be empty or one of the two validation messages. -/
theorem reachable_inv (s : AppState) (h : Reachable s) :
    s.generatedImage = none ∨ s.error = none ∨
    s.error = some fileValidationMsg ∨ s.error = some noFileMsg := by
  induction h with
  | init => simp [initialState]
  | step hr hs ih =>
    rename_i u t
    cases hs with
    | fileChange file =>
      cases file with
      | none => simp [handleFileChange]
      | some f =>
        by_cases him : strStartsWith f.type "image/" = true
        · simp [handleFileChange, him]
        · have him' : strStartsWith f.type "image/" = false := by simpa using him
          simp [handleFileChange, him']
    | generate o =>
      cases hf : u.uploadedFile with
      | none => simp [handleGenerate, handleGenerateStart, hf]
      | some f =>
        cases o with
        | response r =>
          by_cases hok : r.ok = true
          · simp [handleGenerate, handleGenerateStart, handleGenerateFinish,
              hf, hok]
          · have hok' : r.ok = false := by simpa using hok
            simp [handleGenerate, handleGenerateStart, handleGenerateFinish,
              hf, hok']
        | transportError m =>
          simp [handleGenerate, handleGenerateStart, handleGenerateFinish, hf]
    | dismiss => simp [dismissError]
    | promptChange p => simpa [setPrompt] using ih

/-- C1 amended: in every reachable non-submitting state, at most one of
GenerationResult and ErrorState is non-empty, unless ErrorState holds one of
the two fixed validation messages (a rejected intake, or a generate with no
staged file, leaves a prior GenerationResult in place while setting its
message). -/
theorem invariant_amended (s : AppState) (h : Reachable s)
    (_hl : s.isLoading = false) :
    s.generatedImage = none ∨ s.error = none ∨
    s.error = some fileValidationMsg ∨ s.error = some noFileMsg :=
  reachable_inv s h

/-- C1 amended witness: the invariant at the initial state. -/
theorem invariant_amended_witness :
    initialState.generatedImage = none ∨ initialState.error = none ∨
    initialState.error = some fileValidationMsg ∨
    initialState.error = some noFileMsg :=
  invariant_amended initialState Reachable.init rfl

/-- The reachable state refuting the status part of the dismissal claim: an
error is present and nothing else distinguishes the state from Idle. -/
def c8State : AppState := handleFileChange initialState none

/-- C8 counterexample: dismissing the error of a reachable Failed state
changes the derived WorkflowStatus from Failed to Idle. -/
theorem dismiss_status_counterexample :
    Reachable c8State ∧ c8State.error ≠ none ∧
    workflowStatus c8State = WorkflowStatus.Failed ∧
    workflowStatus (dismissError c8State) ≠ workflowStatus c8State := by
  refine ⟨?_, by decide, by decide, by decide⟩
  exact Reachable.step Reachable.init (Step.fileChange initialState none)

/-- C8 amended: dismissal empties ErrorState and leaves every other state
field (staged file, staged preview, prompt, GenerationResult, loading flag)
unchanged; the derived WorkflowStatus is unchanged except that a Failed
status, being derived from error presence, becomes Idle. -/
theorem dismiss_frame (s : AppState) (h : s.error ≠ none) :
    (dismissError s).error = none ∧
    (dismissError s).uploadedFile = s.uploadedFile ∧
    (dismissError s).uploadedImage = s.uploadedImage ∧
    (dismissError s).prompt = s.prompt ∧
    (dismissError s).generatedImage = s.generatedImage ∧
    (dismissError s).isLoading = s.isLoading ∧
    (workflowStatus s ≠ WorkflowStatus.Failed →
      workflowStatus (dismissError s) = workflowStatus s) ∧
    (workflowStatus s = WorkflowStatus.Failed →
      workflowStatus (dismissError s) = WorkflowStatus.Idle) := by
  obtain ⟨m, hm⟩ := Option.ne_none_iff_exists'.mp h
  refine ⟨rfl, rfl, rfl, rfl, rfl, rfl, ?_, ?_⟩ <;>
    · intro hst
      by_cases h1 : s.isLoading = true
      · simp [workflowStatus, dismissError, h1] at hst ⊢
      · have h1' : s.isLoading = false := by simpa using h1
        cases hg : s.generatedImage with
        | none => simp_all [workflowStatus, dismissError, h1', hm]
        | some v => simp_all [workflowStatus, dismissError, h1', hm]

/-- C8 amended witness: dismissing the error of the rejected-intake state. -/
theorem dismiss_frame_witness :
    ((dismissError c8State).error = none ∧
    (dismissError c8State).uploadedFile = c8State.uploadedFile ∧
    (dismissError c8State).uploadedImage = c8State.uploadedImage ∧
    (dismissError c8State).prompt = c8State.prompt ∧
    (dismissError c8State).generatedImage = c8State.generatedImage ∧
    (dismissError c8State).isLoading = c8State.isLoading ∧
    (workflowStatus c8State ≠ WorkflowStatus.Failed →
      workflowStatus (dismissError c8State) = workflowStatus c8State) ∧
    (workflowStatus c8State = WorkflowStatus.Failed →
      workflowStatus (dismissError c8State) = WorkflowStatus.Idle)) :=
  dismiss_frame c8State (by decide)

end MyAINeighbor
